import Mathlib

/-!
Verification of the yt_weba_download repository: a shallow embedding of
the channel-list reader, the downloader facade (video-id extraction,
channel enumeration, per-video download bookkeeping, stats counters),
the batch orchestrator loop with checkpointing, and the JSON result
persister, together with theorems settling the specified properties.
The external yt-dlp library is modelled as an oracle describing, per
call, what the library would do (raise, return no info, or return an
info record).
-/

/-! ## Video-id extraction (YTDownloader._extract_video_id)

The source tries three regular expressions in order on the URL:
  1. `(?:v=|\/)([0-9A-Za-z_-]{11}).*`   searched anywhere,
  2. `(?:embed\/)([0-9A-Za-z_-]{11})`   searched anywhere,
  3. `^([0-9A-Za-z_-]{11})$`            anchored,
returning group 1 of the first pattern that matches, else None.
We model `re.search` as a scan over the character list that tries the
pattern at each successive start position. -/

/-- Membership in the character class `[0-9A-Za-z_-]`. -/
def isIdChar (c : Char) : Bool :=
  c.isAlpha || c.isDigit || c = '_' || c = '-'

/-- Take exactly `n` id-class characters from the front of the list,
returning them together with the remainder; fails if fewer than `n`
id-class characters are available. Models `[0-9A-Za-z_-]{n}`. -/
def idRun : List Char → Nat → Option (List Char × List Char)
  | rest, 0 => some ([], rest)
  | [], _ + 1 => none
  | c :: cs, n + 1 =>
    if isIdChar c then (idRun cs n).map (fun p => (c :: p.1, p.2)) else none

/-- Try pattern 1 at the current position: `v=` or `/` followed by 11
id-class characters (the trailing `.*` of the source pattern always
matches and is dropped). The two alternatives begin with distinct
characters, so alternative order is immaterial. -/
def p1At : List Char → Option (List Char)
  | [] => none
  | c :: cs =>
    if c = '/' then (idRun cs 11).map Prod.fst
    else if c = 'v' then
      match cs with
      | [] => none
      | d :: ds => if d = '=' then (idRun ds 11).map Prod.fst else none
    else none

/-- `re.search` for pattern 1: try each start position left to right. -/
def searchP1 : List Char → Option (List Char)
  | [] => none
  | c :: cs => Option.orElse (p1At (c :: cs)) (fun _ => searchP1 cs)

/-- Try pattern 2 at the current position: `embed/` then 11 id chars. -/
def p2At : List Char → Option (List Char)
  | c1 :: c2 :: c3 :: c4 :: c5 :: c6 :: rest =>
    if c1 = 'e' && c2 = 'm' && c3 = 'b' && c4 = 'e' && c5 = 'd' && c6 = '/' then
      (idRun rest 11).map Prod.fst
    else none
  | _ => none

/-- `re.search` for pattern 2. -/
def searchP2 : List Char → Option (List Char)
  | [] => none
  | c :: cs => Option.orElse (p2At (c :: cs)) (fun _ => searchP2 cs)

/-- Pattern 3, anchored: the whole input is 11 id-class characters
(Python `$` also matches just before one trailing newline). -/
def p3 (s : List Char) : Option (List Char) :=
  match idRun s 11 with
  | some (r, rest) => if rest = [] || rest = ['\n'] then some r else none
  | none => none

/-- The extraction result on a character list: first pattern that hits. -/
def extractL (s : List Char) : Option (List Char) :=
  Option.orElse (searchP1 s) (fun _ =>
    Option.orElse (searchP2 s) (fun _ => p3 s))

/-- `YTDownloader._extract_video_id` on a URL string. -/
def extractVideoId (url : String) : Option String :=
  (extractL url.data).map (fun l => String.mk l)

/-- The URL contains a run of 11 consecutive id-class characters
somewhere (an "11-character token"). -/
def hasRun11 : List Char → Bool
  | [] => false
  | c :: cs => (idRun (c :: cs) 11).isSome || hasRun11 cs

/-- The fixed characters of a canonical watch URL before the id. -/
def watchPre : List Char :=
  ['h', 't', 't', 'p', 's', ':', '/', '/', 'w', 'w', 'w', '.',
   'y', 'o', 'u', 't', 'u', 'b', 'e', '.', 'c', 'o', 'm', '/',
   'w', 'a', 't', 'c', 'h', '?', 'v', '=']

/-- The fixed characters of a youtu.be short URL before the id. -/
def bePre : List Char :=
  ['h', 't', 't', 'p', 's', ':', '/', '/', 'y', 'o', 'u', 't', 'u',
   '.', 'b', 'e', '/']

/-! ## Stats (YTDownloader.__init__ / print_stats) -/

/-- The process-wide counters held by a YTDownloader instance. -/
structure Stats where
  total_videos : Nat
  successful : Nat
  failed : Nat
  skipped : Nat
deriving DecidableEq

/-- Counters as initialized by the constructor: all zero. -/
def initStats : Stats := ⟨0, 0, 0, 0⟩

/-- A bar of 60 equal signs, as used by the logging in print_stats. -/
def statBar : String := String.mk (List.replicate 60 '=')

/-- The lines logged by `YTDownloader.print_stats`. -/
def printStats (s : Stats) : List String :=
  ["\n" ++ statBar,
   "DOWNLOAD STATISTICS",
   statBar,
   "Total videos: " ++ toString s.total_videos,
   "Successful: " ++ toString s.successful,
   "Failed: " ++ toString s.failed,
   "Skipped: " ++ toString s.skipped,
   statBar]

/-! ## The external library oracle

The yt-dlp library is an opaque collaborator. A `LibInfo` models the
info dictionary returned by a successful `extract_info` call: every
`info.get(key)` that may be absent or null is an `Option`; the
`audio_channels` key additionally distinguishes a missing key (outer
`none`, where `.get(key, 2)` yields the default 2) from a present null
value (inner `none`). -/

/-- The fields of the yt-dlp info dictionary read by the downloader. -/
structure LibInfo where
  id : Option String
  title : Option String
  upload_date : Option String
  uploader : Option String
  duration : Option Int
  view_count : Option Int
  like_count : Option Int
  description : Option String
  acodec : Option String
  asr : Option Int
  abr : Option Int
  audio_channels : Option (Option Int)
  ext : Option String
  filesize : Option Int
  filesize_approx : Option Int
deriving DecidableEq

/-- What the library does on one `extract_info(url, download=True)`
call: raise an exception carrying a message, return a falsy info value,
or return an info record. -/
inductive LibOutcome where
  | raises (msg : String)
  | noInfo
  | info (i : LibInfo)

/-- What the library does on one flat channel enumeration call: raise,
return a result without an `entries` key, or return a list of entries,
where each entry is `none` when falsy or lacking an `id` key and
`some id` otherwise. -/
inductive EnumOutcome where
  | raises (msg : String)
  | noEntries
  | entries (es : List (Option String))

/-! ## Metadata shaping (YTDownloader._extract_metadata) -/

/-- The audio sub-record of the persisted per-video metadata. -/
structure AudioMeta where
  codec : Option String
  sample_rate : Option Int
  bit_rate : Option Int
  channels : Option Int
  format : Option String
  file_size : Option Int
deriving DecidableEq

/-- The per-video metadata record persisted as `<video_id>.json`. -/
structure Metadata where
  video_id : Option String
  title : Option String
  channel_url : String
  channel_name : String
  upload_date : Option String
  uploader : Option String
  duration_sec : Option Int
  view_count : Option Int
  like_count : Option Int
  description : Option String
  audio_metadata : AudioMeta
  download_timestamp : String
  original_url : String
deriving DecidableEq

/-- Python `a or b` on two optional integers: the left operand is kept
only when it is truthy (present and nonzero). Models
`info.get('filesize') or info.get('filesize_approx')`. -/
def pyOrInt (a b : Option Int) : Option Int :=
  match a with
  | some n => if n = 0 then b else some n
  | none => b

/-- `YTDownloader._extract_metadata`: shape the info record into the
persisted metadata, defaulting the channel count to 2 when the key is
absent, with the wall-clock timestamp passed in from the environment. -/
def extractMetadata (i : LibInfo) (channelName videoUrl now : String) : Metadata :=
  { video_id := i.id
    title := i.title
    channel_url := videoUrl
    channel_name := channelName
    upload_date := i.upload_date
    uploader := i.uploader
    duration_sec := i.duration
    view_count := i.view_count
    like_count := i.like_count
    description := i.description
    audio_metadata :=
      { codec := i.acodec
        sample_rate := i.asr
        bit_rate := i.abr
        channels := match i.audio_channels with
          | none => some 2
          | some v => v
        format := i.ext
        file_size := pyOrInt i.filesize i.filesize_approx }
    download_timestamp := now
    original_url := videoUrl }

/-! ## Per-video download (YTDownloader.download_video_audio) -/

/-- The per-video result dictionary. Fields that are absent from some
of the three dictionary shapes built by the source are `Option`s; key
emission order in serialization follows the shared field order below. -/
structure VideoResult where
  video_url : String
  video_id : Option String := none
  channel_name : Option String := none
  status : String
  output_dir : Option String := none
  metadata_file : Option String := none
  metadata : Option Metadata := none
  error : Option String := none
deriving DecidableEq

/-- Output of one `download_video_audio` call: the result dictionary,
the updated stats, and whether the external library was invoked. -/
structure DVOut where
  result : VideoResult
  stats : Stats
  calledLib : Bool

/-- `YTDownloader.download_video_audio`. If no video id is extractable
the call returns a failure result immediately, without touching the
stats and without invoking the library. Otherwise the library oracle
decides the outcome: an info record yields a success result (metadata
shaped and persisted beside the audio) and bumps the success counter; a
falsy info value raises internally and any raised exception is caught,
bumping the failure counter and stringifying the error into the
result. -/
def downloadVideoAudio (lib : LibOutcome) (now url channelName baseDir : String)
    (s : Stats) : DVOut :=
  match extractVideoId url with
  | none =>
    { result := { video_url := url, status := "failed",
                  error := some "Invalid video URL" }
      stats := s
      calledLib := false }
  | some vid =>
    let dir := baseDir ++ "/" ++ channelName ++ "/" ++ vid
    match lib with
    | LibOutcome.info i =>
      let md := extractMetadata i channelName url now
      { result := { video_url := url, video_id := some vid,
                    channel_name := some channelName, status := "success",
                    output_dir := some dir,
                    metadata_file := some (dir ++ "/" ++ vid ++ ".json"),
                    metadata := some md }
        stats := { s with successful := s.successful + 1 }
        calledLib := true }
    | LibOutcome.noInfo =>
      { result := { video_url := url, video_id := some vid,
                    channel_name := some channelName, status := "failed",
                    error := some "No info returned from yt-dlp" }
        stats := { s with failed := s.failed + 1 }
        calledLib := true }
    | LibOutcome.raises msg =>
      { result := { video_url := url, video_id := some vid,
                    channel_name := some channelName, status := "failed",
                    error := some msg }
        stats := { s with failed := s.failed + 1 }
        calledLib := true }

/-! ## Channel enumeration (YTDownloader.get_channel_videos) -/

/-- Python truthiness of the optional `max_videos` argument: `None` and
`0` are both falsy. -/
def optTruthy : Option Nat → Bool
  | none => false
  | some n => n != 0

/-- The canonical watch URL constructed for an enumerated video id. -/
def watchUrl (vid : String) : String :=
  "https://www.youtube.com/watch?v=" ++ vid

/-- The enumeration loop: append a URL for each entry carrying an id,
breaking once `len(video_urls) >= max_videos` with `max_videos` truthy
(the check runs after the append, exactly as in the source). -/
def collectVideos (maxV : Option Nat) : List (Option String) → List String → List String
  | [], acc => acc
  | e :: rest, acc =>
    match e with
    | none => collectVideos maxV rest acc
    | some vid =>
      let acc2 := acc ++ [watchUrl vid]
      if optTruthy maxV && decide (maxV.getD 0 ≤ acc2.length) then acc2
      else collectVideos maxV rest acc2

/-- `YTDownloader.get_channel_videos`: an exception from the library or
a result without entries yields the empty list (with a warning logged);
otherwise the entries are folded into canonical watch URLs. -/
def getChannelVideos (e : EnumOutcome) (maxV : Option Nat) : List String :=
  match e with
  | EnumOutcome.raises _ => []
  | EnumOutcome.noEntries => []
  | EnumOutcome.entries es => collectVideos maxV es []

/-! ## Per-channel download (YTDownloader.download_from_channel) -/

/-- The oracle for one channel: what enumeration returns, and what the
library and the wall clock do on the i-th per-video download call. -/
structure ChannelOracle where
  enum : EnumOutcome
  lib : Nat → LibOutcome
  time : Nat → String

/-- The per-channel download loop body: download each URL in order,
threading the stats (the randomized sleep between downloads has no
observable effect on the modelled state). -/
def runVideos (o : ChannelOracle) (channelName baseDir : String) :
    List String → Nat → Stats → List VideoResult × Stats
  | [], _, s => ([], s)
  | u :: rest, i, s =>
    let out := downloadVideoAudio (o.lib i) (o.time i) u channelName baseDir s
    let pr := runVideos o channelName baseDir rest (i + 1) out.stats
    (out.result :: pr.1, pr.2)

/-- `YTDownloader.download_from_channel`: enumerate, return the empty
list untouched when nothing was enumerated, otherwise bump the
total-videos counter by the enumerated count and download each video. -/
def downloadFromChannel (o : ChannelOracle) (_channelUrl channelName : String)
    (maxV : Option Nat) (baseDir : String) (s : Stats) :
    List VideoResult × Stats :=
  let urls := getChannelVideos o.enum maxV
  if urls.isEmpty then ([], s)
  else runVideos o channelName baseDir urls 0
    { s with total_videos := s.total_videos + urls.length }

/-! ## Channel list reader (read_channel_list) -/

/-- The whitespace characters stripped by Python `str.strip`. -/
def isPySpace (c : Char) : Bool :=
  c = ' ' || c = '\t' || c = '\n' || c = '\r' || c = '\x0b' || c = '\x0c'

/-- Python `str.strip`: drop whitespace from both ends. -/
def pyStrip (l : List Char) : List Char :=
  ((l.dropWhile isPySpace).reverse.dropWhile isPySpace).reverse

/-- Split at the first occurrence of `sep`, if any: models both the
`sep in line` membership test (via `isSome`) and `line.split(sep, 1)`. -/
def splitFirst (sep : Char) : List Char → Option (List Char × List Char)
  | [] => none
  | c :: cs =>
    if c = sep then some ([], cs)
    else (splitFirst sep cs).map (fun p => (c :: p.1, p.2))

/-- One line of the channel list file: strip; skip when empty or a
comment; with a comma present, split on the first comma and strip both
parts (the two-way split of the source always yields two parts, so its
defensive length check cannot fire); without a comma, skip with a
warning. -/
def parseChannelLine (line : List Char) : Option (List Char × List Char) :=
  let l := pyStrip line
  if l = [] then none
  else if l.head? = some '#' then none
  else
    match splitFirst ',' l with
    | some (a, b) => some (pyStrip a, pyStrip b)
    | none => none

/-- `read_channel_list` over the decoded lines of the file. -/
def readChannelList (lines : List (List Char)) : List (List Char × List Char) :=
  lines.filterMap parseChannelLine

/-! ## JSON serialization (save_batch_results)

`json.dump(results, f, ensure_ascii=False, indent=2)` rendered exactly:
2-space indentation, key separator a colon and a space, item separator
a comma, non-ASCII characters passed through, strings escaped as Python
escapes them with `ensure_ascii=False`. -/

/-- Lowercase hexadecimal digit. -/
def hexDigit (n : Nat) : Char :=
  if n < 10 then Char.ofNat (48 + n) else Char.ofNat (87 + n)

/-- Four-digit lowercase hexadecimal rendering of a code point. -/
def hex4 (n : Nat) : String :=
  String.mk [hexDigit (n / 4096 % 16), hexDigit (n / 256 % 16),
             hexDigit (n / 16 % 16), hexDigit (n % 16)]

/-- Escape one character as Python json does with `ensure_ascii=False`:
quote and backslash escaped, the five short control escapes, `\uXXXX`
for other control characters, everything else passed through. -/
def jescChar (c : Char) : String :=
  if c = '"' then "\\\""
  else if c = '\\' then "\\\\"
  else if c = '\n' then "\\n"
  else if c = '\t' then "\\t"
  else if c = '\r' then "\\r"
  else if c = '\x08' then "\\b"
  else if c = '\x0c' then "\\f"
  else if c.toNat < 32 then "\\u" ++ hex4 c.toNat
  else String.mk [c]

/-- A JSON string literal. -/
def jstr (s : String) : String :=
  "\"" ++ String.join (s.data.map jescChar) ++ "\""

/-- A JSON integer literal. -/
def jint (n : Int) : String := toString n

/-- A JSON rendering of a natural number count. -/
def jnat (n : Nat) : String := toString n

/-- An optional value rendered as its JSON form or `null`. -/
def jopt (f : α → String) : Option α → String
  | some a => f a
  | none => "null"

/-- The indentation in front of items nested `d` levels deep. -/
def jind (d : Nat) : String := String.mk (List.replicate (2 * d) ' ')

/-- A JSON object whose contents sit at nesting depth `d + 1`, from an
ordered list of keys paired with already-rendered values. -/
def jobj (d : Nat) (kvs : List (String × String)) : String :=
  if kvs.isEmpty then "\x7b\x7d"
  else
    "\x7b\n" ++
    String.intercalate ",\n"
      (kvs.map (fun kv => jind (d + 1) ++ jstr kv.1 ++ ": " ++ kv.2)) ++
    "\n" ++ jind d ++ "\x7d"

/-- A JSON array whose items sit at nesting depth `d + 1`. -/
def jarr (d : Nat) (items : List String) : String :=
  if items.isEmpty then "[]"
  else
    "[\n" ++
    String.intercalate ",\n" (items.map (fun it => jind (d + 1) ++ it)) ++
    "\n" ++ jind d ++ "]"

/-- Serialize the audio metadata sub-record at depth `d`. -/
def serializeAudioMeta (d : Nat) (a : AudioMeta) : String :=
  jobj d
    [("codec", jopt jstr a.codec),
     ("sample_rate", jopt jint a.sample_rate),
     ("bit_rate", jopt jint a.bit_rate),
     ("channels", jopt jint a.channels),
     ("format", jopt jstr a.format),
     ("file_size", jopt jint a.file_size)]

/-- Serialize a metadata record at depth `d`, keys in source order. -/
def serializeMetadata (d : Nat) (m : Metadata) : String :=
  jobj d
    [("video_id", jopt jstr m.video_id),
     ("title", jopt jstr m.title),
     ("channel_url", jstr m.channel_url),
     ("channel_name", jstr m.channel_name),
     ("upload_date", jopt jstr m.upload_date),
     ("uploader", jopt jstr m.uploader),
     ("duration_sec", jopt jint m.duration_sec),
     ("view_count", jopt jint m.view_count),
     ("like_count", jopt jint m.like_count),
     ("description", jopt jstr m.description),
     ("audio_metadata", serializeAudioMeta (d + 1) m.audio_metadata),
     ("download_timestamp", jstr m.download_timestamp),
     ("original_url", jstr m.original_url)]

/-- Serialize a per-video result at depth `d`: only the keys present in
the dictionary shape the source built, in their construction order. -/
def serializeVideoResult (d : Nat) (r : VideoResult) : String :=
  jobj d
    ([("video_url", jstr r.video_url)] ++
     (match r.video_id with
      | some v => [("video_id", jstr v)]
      | none => []) ++
     (match r.channel_name with
      | some v => [("channel_name", jstr v)]
      | none => []) ++
     [("status", jstr r.status)] ++
     (match r.output_dir with
      | some v => [("output_dir", jstr v)]
      | none => []) ++
     (match r.metadata_file with
      | some v => [("metadata_file", jstr v)]
      | none => []) ++
     (match r.metadata with
      | some m => [("metadata", serializeMetadata (d + 1) m)]
      | none => []) ++
     (match r.error with
      | some v => [("error", jstr v)]
      | none => []))

/-! ## Batch orchestrator (batch_download_channels.main) -/

/-- A per-channel result: the normal shape built after
`download_from_channel` returns, or the error shape recorded when the
call raises. -/
inductive ChannelResult where
  | ok (channel_url : String) (total_videos successful failed : Nat)
      (videos : List VideoResult)
  | err (channel_url : String) (error : String)
deriving DecidableEq

/-- Serialize one channel result at depth `d`, keys in source order. -/
def serializeChannelResult (d : Nat) : ChannelResult → String
  | ChannelResult.ok url total succ fail vids =>
    jobj d
      [("channel_url", jstr url),
       ("total_videos", jnat total),
       ("successful", jnat succ),
       ("failed", jnat fail),
       ("videos", jarr (d + 1) (vids.map (serializeVideoResult (d + 2))))]
  | ChannelResult.err url e =>
    jobj d
      [("channel_url", jstr url),
       ("status", jstr "error"),
       ("error", jstr e)]

/-- Serialize the accumulated results mapping, keys in insertion
order. -/
def serializeResults (rs : List (String × ChannelResult)) : String :=
  jobj 0 (rs.map (fun p => (p.1, serializeChannelResult 1 p.2)))

/-- `save_batch_results`: open the file for writing (truncating
whatever was there) and dump the mapping; the previous file content is
discarded. -/
def saveBatchResults (rs : List (String × ChannelResult))
    (_file : Option String) : Option String :=
  some (serializeResults rs)

/-- Python dict assignment `d[k] = v` on an insertion-ordered mapping:
replace the value in place when the key exists, append otherwise. -/
def dictInsert : List (String × ChannelResult) → String → ChannelResult →
    List (String × ChannelResult)
  | [], k, v => [(k, v)]
  | (k1, v1) :: rest, k, v =>
    if k1 = k then (k, v) :: rest
    else (k1, v1) :: dictInsert rest k v

/-- One channel of the batch: its name, URL, and what happens when the
orchestrator calls `download_from_channel` on it, either a normal
return driven by an oracle or an exception carrying a message. -/
structure ChannelSpec where
  name : String
  url : String
  behavior : Except String ChannelOracle

/-- The orchestrator state: the accumulated results mapping, the
checkpoint file content, the downloader stats, and the list of channels
that errored at the top level. -/
structure BatchState where
  all_results : List (String × ChannelResult)
  checkpoint : Option String
  stats : Stats
  failed_channels : List (String × String)

/-- The orchestrator state before any channel is processed. -/
def initBatchState : BatchState :=
  { all_results := [], checkpoint := none, stats := initStats,
    failed_channels := [] }

/-- `sum(1 for r in results if r['status'] == st)`. -/
def countStatus (st : String) (rs : List VideoResult) : Nat :=
  rs.countP (fun r => r.status == st)

/-- One iteration of the orchestrator loop. On a normal return the
channel result is built from the returned list, recorded in the
mapping, and the checkpoint file is rewritten with the whole mapping;
on an exception the error entry is recorded in the mapping and in the
failed-channels list, and the checkpoint file is left as it was (the
checkpoint write sits inside the try block of the source). -/
def processChannel (maxV : Option Nat) (baseDir : String)
    (st : BatchState) (c : ChannelSpec) : BatchState :=
  match c.behavior with
  | Except.ok o =>
    let pr := downloadFromChannel o c.url c.name maxV baseDir st.stats
    let cr := ChannelResult.ok c.url pr.1.length
      (countStatus "success" pr.1) (countStatus "failed" pr.1) pr.1
    let rs := dictInsert st.all_results c.name cr
    { all_results := rs
      checkpoint := saveBatchResults rs st.checkpoint
      stats := pr.2
      failed_channels := st.failed_channels }
  | Except.error e =>
    let rs := dictInsert st.all_results c.name (ChannelResult.err c.url e)
    { all_results := rs
      checkpoint := st.checkpoint
      stats := st.stats
      failed_channels := st.failed_channels ++ [(c.name, e)] }

/-- The orchestrator loop over the channel list. -/
def runChannels (maxV : Option Nat) (baseDir : String)
    (cs : List ChannelSpec) : BatchState :=
  cs.foldl (processChannel maxV baseDir) initBatchState

/-- The whole batch run: the loop, then the final results file written
once from the full mapping. -/
def runBatch (maxV : Option Nat) (baseDir : String)
    (cs : List ChannelSpec) : BatchState × Option String :=
  let st := runChannels maxV baseDir cs
  (st, saveBatchResults st.all_results none)

/-! ## Operation sequences over one downloader instance -/

/-- One operation performed on a YTDownloader instance. -/
inductive DOp where
  | vid (lib : LibOutcome) (now url channelName : String)
  | chan (o : ChannelOracle) (channelUrl channelName : String)
      (maxV : Option Nat)
  | enum (e : EnumOutcome) (maxV : Option Nat)

/-- The effect of one operation on the stats counters
(`get_channel_videos` never touches them). -/
def applyOp (baseDir : String) (s : Stats) : DOp → Stats
  | DOp.vid lib now url ch => (downloadVideoAudio lib now url ch baseDir s).stats
  | DOp.chan o url ch maxV => (downloadFromChannel o url ch maxV baseDir s).2
  | DOp.enum _ _ => s

/-- The count bookkeeping recorded in a normal channel result is
consistent: successes plus failures equal the recorded total, which is
the number of per-video results. -/
def goodCR : ChannelResult → Prop
  | ChannelResult.ok _ t su fa vids => su + fa = t ∧ t = vids.length
  | ChannelResult.err _ _ => True

/-! ## Lemmas about video-id extraction -/

theorem idRun_all : ∀ (l : List Char), l.all isIdChar = true →
    idRun l l.length = some (l, []) := by
  intro l
  induction l with
  | nil => intro _; rfl
  | cons c cs ih =>
    intro h
    rw [List.all_cons, Bool.and_eq_true] at h
    show idRun (c :: cs) (cs.length + 1) = some (c :: cs, [])
    simp [idRun, h.1, ih h.2]

theorem hasRun11_tail {c : Char} {cs : List Char}
    (h : hasRun11 (c :: cs) = false) : hasRun11 cs = false := by
  rw [hasRun11, Bool.or_eq_false_iff] at h
  exact h.2

theorem idRun_none_of_no_token {s : List Char} (h : hasRun11 s = false) :
    idRun s 11 = none := by
  cases s with
  | nil => rfl
  | cons c cs =>
    rw [hasRun11, Bool.or_eq_false_iff] at h
    cases ho : idRun (c :: cs) 11 with
    | none => rfl
    | some p => rw [ho] at h; simp at h

theorem p1At_none {s : List Char} (h : hasRun11 s = false) : p1At s = none := by
  rcases s with _ | ⟨c, cs⟩
  · rfl
  · by_cases hc : c = '/'
    · simp [p1At, hc, idRun_none_of_no_token (hasRun11_tail h)]
    · by_cases hv : c = 'v'
      · rcases cs with _ | ⟨d, ds⟩
        · simp [p1At, hc, hv]
        · by_cases hd : d = '='
          · have h2 : hasRun11 ds = false := hasRun11_tail (hasRun11_tail h)
            simp [p1At, hc, hv, hd, idRun_none_of_no_token h2]
          · simp [p1At, hc, hv, hd]
      · simp [p1At, hc, hv]

theorem p2At_none {s : List Char} (h : hasRun11 s = false) : p2At s = none := by
  rcases s with _ | ⟨c1, _ | ⟨c2, _ | ⟨c3, _ | ⟨c4, _ | ⟨c5, _ | ⟨c6, rest⟩⟩⟩⟩⟩⟩
  · rfl
  · rfl
  · rfl
  · rfl
  · rfl
  · rfl
  · have hr : hasRun11 rest = false :=
      hasRun11_tail (hasRun11_tail (hasRun11_tail (hasRun11_tail
        (hasRun11_tail (hasRun11_tail h)))))
    rw [p2At]
    split
    · simp [idRun_none_of_no_token hr]
    · rfl

theorem p3_none {s : List Char} (h : hasRun11 s = false) : p3 s = none := by
  rw [p3, idRun_none_of_no_token h]

theorem searchP1_none : ∀ {s : List Char}, hasRun11 s = false →
    searchP1 s = none := by
  intro s
  induction s with
  | nil => intro _; rfl
  | cons c cs ih =>
    intro h
    rw [searchP1, p1At_none h]
    exact ih (hasRun11_tail h)

theorem searchP2_none : ∀ {s : List Char}, hasRun11 s = false →
    searchP2 s = none := by
  intro s
  induction s with
  | nil => intro _; rfl
  | cons c cs ih =>
    intro h
    rw [searchP2, p2At_none h]
    exact ih (hasRun11_tail h)

theorem extractL_of_no_token (s : List Char) (h : hasRun11 s = false) :
    extractL s = none := by
  rw [extractL, searchP1_none h, searchP2_none h, p3_none h]
  rfl

theorem extractL_watch (id : List Char) (h1 : id.length = 11)
    (h2 : id.all isIdChar = true) : extractL (watchPre ++ id) = some id := by
  have hrun : idRun id 11 = some (id, []) := by
    have h3 := idRun_all id h2
    rwa [h1] at h3
  have hs : searchP1 (watchPre ++ id) =
      Option.orElse ((idRun id 11).map Prod.fst) (fun _ => searchP1 ('=' :: id)) := rfl
  have hs2 : searchP1 (watchPre ++ id) = some id := by
    rw [hs, hrun]; rfl
  show Option.orElse (searchP1 (watchPre ++ id)) _ = some id
  rw [hs2]
  rfl

theorem extractL_be (id : List Char) (h1 : id.length = 11)
    (h2 : id.all isIdChar = true) : extractL (bePre ++ id) = some id := by
  have hrun : idRun id 11 = some (id, []) := by
    have h3 := idRun_all id h2
    rwa [h1] at h3
  have hs : searchP1 (bePre ++ id) =
      Option.orElse ((idRun id 11).map Prod.fst) (fun _ => searchP1 id) := rfl
  have hs2 : searchP1 (bePre ++ id) = some id := by
    rw [hs, hrun]; rfl
  show Option.orElse (searchP1 (bePre ++ id)) _ = some id
  rw [hs2]
  rfl

/-- C6: for a canonical `watch?v=` URL with an 11-character id the
extractor returns that id; likewise for a `youtu.be/` short URL; and on
a URL containing no 11-character token the extractor returns no id and
`download_video_audio` returns a failure result without invoking the
library and without touching the stats. -/
theorem c6_video_id_extraction :
    (∀ id : List Char, id.length = 11 → id.all isIdChar = true →
      extractL (watchPre ++ id) = some id ∧ extractL (bePre ++ id) = some id) ∧
    (∀ url : List Char, hasRun11 url = false → extractL url = none) ∧
    (∀ lib now ch base s (url : String), hasRun11 url.data = false →
      (downloadVideoAudio lib now url ch base s).calledLib = false ∧
      (downloadVideoAudio lib now url ch base s).result.status = "failed" ∧
      (downloadVideoAudio lib now url ch base s).result.error =
        some "Invalid video URL" ∧
      (downloadVideoAudio lib now url ch base s).stats = s) := by
  refine ⟨fun id h1 h2 => ⟨extractL_watch id h1 h2, extractL_be id h1 h2⟩,
          fun url h => extractL_of_no_token url h, ?_⟩
  intro lib now ch base s url h
  have he : extractVideoId url = none := by
    rw [extractVideoId, extractL_of_no_token url.data h]
    rfl
  simp [downloadVideoAudio, he]

/-- Concrete instantiation of the extraction theorem. -/
theorem c6_video_id_extraction_witness :
    extractL (watchPre ++ ['d', 'Q', 'w', '4', 'w', '9', 'W', 'g', 'X', 'c', 'Q']) =
      some ['d', 'Q', 'w', '4', 'w', '9', 'W', 'g', 'X', 'c', 'Q'] ∧
    extractL (bePre ++ ['d', 'Q', 'w', '4', 'w', '9', 'W', 'g', 'X', 'c', 'Q']) =
      some ['d', 'Q', 'w', '4', 'w', '9', 'W', 'g', 'X', 'c', 'Q'] ∧
    extractL "https://ab.cd/ef".data = none ∧
    (downloadVideoAudio (LibOutcome.raises "x") "t" "https://ab.cd/ef" "c" "d"
      initStats).calledLib = false := by
  have h := c6_video_id_extraction
  exact ⟨(h.1 _ (by decide) (by decide)).1,
         (h.1 _ (by decide) (by decide)).2,
         h.2.1 _ (by decide),
         (h.2.2 (LibOutcome.raises "x") "t" "c" "d" initStats
           "https://ab.cd/ef" (by decide)).1⟩

/-! ## Lemmas about the channel list reader -/

theorem mem_of_mem_dropWhile {p : Char → Bool} {c : Char} {l : List Char}
    (h : c ∈ List.dropWhile p l) : c ∈ l :=
  List.Sublist.mem h (List.dropWhile_sublist p)

theorem mem_of_mem_pyStrip {c : Char} {l : List Char}
    (h : c ∈ pyStrip l) : c ∈ l := by
  rw [pyStrip, List.mem_reverse] at h
  have h2 := mem_of_mem_dropWhile h
  rw [List.mem_reverse] at h2
  exact mem_of_mem_dropWhile h2

theorem splitFirst_eq_none {sep : Char} : ∀ {l : List Char}, sep ∉ l →
    splitFirst sep l = none := by
  intro l
  induction l with
  | nil => intro _; rfl
  | cons c cs ih =>
    intro h
    rw [List.mem_cons, not_or] at h
    have hc : ¬(c = sep) := fun he => h.1 he.symm
    simp [splitFirst, hc, ih h.2]

theorem dropWhile_append_last {p : Char → Bool} {a : Char} (ha : p a = false) :
    ∀ xs : List Char, ∃ ys, List.dropWhile p (xs ++ [a]) = ys ++ [a] := by
  intro xs
  induction xs with
  | nil => exact ⟨[], by simp [List.dropWhile_cons, ha]⟩
  | cons x xs ih =>
    by_cases hx : p x
    · obtain ⟨ys, hys⟩ := ih
      exact ⟨ys, by simp [List.dropWhile_cons, hx, hys]⟩
    · exact ⟨x :: xs, by simp [List.dropWhile_cons, hx]⟩

theorem pyStrip_hash_head (l : List Char) :
    (pyStrip ('#' :: l)).head? = some '#' := by
  have hsp : isPySpace '#' = false := rfl
  have h1 : List.dropWhile isPySpace ('#' :: l) = '#' :: l := by
    rw [List.dropWhile_cons, hsp]
    simp
  rw [pyStrip, h1, List.reverse_cons]
  obtain ⟨ys, hys⟩ := dropWhile_append_last hsp l.reverse
  rw [hys, List.reverse_append]
  rfl

/-- C7: a line that survives the blank and comment filters and contains
a comma is split on the first comma with both parts stripped of
surrounding whitespace; in particular the line `A,B,C` yields exactly
the entry with name `A` and url `B,C`. -/
theorem c7_split_on_first_comma :
    (∀ line : List Char, pyStrip line ≠ [] →
      (pyStrip line).head? ≠ some '#' →
      ∀ a b, splitFirst ',' (pyStrip line) = some (a, b) →
      parseChannelLine line = some (pyStrip a, pyStrip b)) ∧
    parseChannelLine "A,B,C".data = some ("A".data, "B,C".data) := by
  constructor
  · intro line h1 h2 a b hs
    simp only [parseChannelLine]
    rw [if_neg h1, if_neg h2, hs]
  · decide

/-- Concrete instantiation of the first-comma split theorem. -/
theorem c7_split_on_first_comma_witness :
    parseChannelLine " name , url1,url2 ".data =
      some ("name".data, "url1,url2".data) :=
  c7_split_on_first_comma.1 " name , url1,url2 ".data (by decide) (by decide)
    "name ".data " url1,url2".data (by decide)

/-- C8: a line that is blank after stripping, starts with a comment
mark, or contains no comma produces no entry (and the reader, being a
total function, cannot raise); the five-line sample file parses to
exactly its two well-formed entries, in file order. -/
theorem c8_reader_skips_bad_lines :
    (∀ line : List Char,
      (pyStrip line = [] ∨ line.head? = some '#' ∨ ',' ∉ line) →
      parseChannelLine line = none) ∧
    readChannelList
      ["leon,https://x/channel/AAA".data, "# comment".data, "".data,
       "bad-line".data, "foo,https://x/channel/BBB".data] =
      [("leon".data, "https://x/channel/AAA".data),
       ("foo".data, "https://x/channel/BBB".data)] := by
  constructor
  · intro line h
    rcases h with h | h | h
    · simp [parseChannelLine, h]
    · rcases line with _ | ⟨c, rest⟩
      · simp at h
      · have hc : c = '#' := by
          rw [List.head?_cons] at h
          exact (Option.some.injEq _ _).mp h
        subst hc
        have hh : (pyStrip ('#' :: rest)).head? = some '#' :=
          pyStrip_hash_head rest
        have hne : pyStrip ('#' :: rest) ≠ [] := by
          intro he
          rw [he] at hh
          exact Option.noConfusion hh
        simp [parseChannelLine, hne, hh]
    · have hnone : splitFirst ',' (pyStrip line) = none :=
        splitFirst_eq_none (fun hm => h (mem_of_mem_pyStrip hm))
      by_cases h1 : pyStrip line = []
      · simp [parseChannelLine, h1]
      · by_cases h2 : (pyStrip line).head? = some '#'
        · simp [parseChannelLine, h1, h2]
        · simp [parseChannelLine, h1, h2, hnone]
  · decide

/-- Concrete instantiation of the skipped-lines theorem. -/
theorem c8_reader_skips_bad_lines_witness :
    parseChannelLine "bad-line".data = none :=
  c8_reader_skips_bad_lines.1 "bad-line".data (Or.inr (Or.inr (by decide)))

/-! ## Lemmas about the per-video download -/

theorem dv_status (lib : LibOutcome) (now url ch base : String) (s : Stats) :
    (downloadVideoAudio lib now url ch base s).result.status = "success" ∨
    (downloadVideoAudio lib now url ch base s).result.status = "failed" := by
  cases hid : extractVideoId url with
  | none => right; simp [downloadVideoAudio, hid]
  | some v =>
    cases lib with
    | info i => left; simp [downloadVideoAudio, hid]
    | noInfo => right; simp [downloadVideoAudio, hid]
    | raises m => right; simp [downloadVideoAudio, hid]

/-- C5: the downloader is total on per-video work (every call returns a
result dictionary whose status is success or failed, so per-video
failures are always captured rather than raised), and when the library
raises an exception the call returns a failed result carrying the
stringified error, bumps the failure counter by one, and leaves the
success counter alone. -/
theorem c5_library_exception_captured :
    ∀ now url ch base s,
      (∀ lib,
        (downloadVideoAudio lib now url ch base s).result.status = "success" ∨
        (downloadVideoAudio lib now url ch base s).result.status = "failed") ∧
      (∀ msg id, extractVideoId url = some id →
        (downloadVideoAudio (LibOutcome.raises msg) now url ch base s).result.status =
          "failed" ∧
        (downloadVideoAudio (LibOutcome.raises msg) now url ch base s).result.error =
          some msg ∧
        (downloadVideoAudio (LibOutcome.raises msg) now url ch base s).stats.failed =
          s.failed + 1 ∧
        (downloadVideoAudio (LibOutcome.raises msg) now url ch base s).stats.successful =
          s.successful) := by
  intro now url ch base s
  refine ⟨fun lib => dv_status lib now url ch base s, ?_⟩
  intro msg id hid
  simp [downloadVideoAudio, hid]

/-- Concrete instantiation of the captured-exception theorem. -/
theorem c5_library_exception_captured_witness :
    (downloadVideoAudio (LibOutcome.raises "HTTP Error 403") "t"
      "https://youtu.be/BFudEmWtgAc" "c" "d" initStats).result.status = "failed" ∧
    (downloadVideoAudio (LibOutcome.raises "HTTP Error 403") "t"
      "https://youtu.be/BFudEmWtgAc" "c" "d" initStats).result.error =
      some "HTTP Error 403" ∧
    (downloadVideoAudio (LibOutcome.raises "HTTP Error 403") "t"
      "https://youtu.be/BFudEmWtgAc" "c" "d" initStats).stats.failed =
      initStats.failed + 1 ∧
    (downloadVideoAudio (LibOutcome.raises "HTTP Error 403") "t"
      "https://youtu.be/BFudEmWtgAc" "c" "d" initStats).stats.successful =
      initStats.successful :=
  (c5_library_exception_captured "t" "https://youtu.be/BFudEmWtgAc" "c" "d"
    initStats).2 "HTTP Error 403" "BFudEmWtgAc" (by decide)

/-- C2 counterexample: a call on a URL from which no video id is
extractable changes neither the success counter nor the failure
counter, so it is not the case that exactly one of them is incremented
on every call. -/
theorem c2_counterexample :
    ¬ ((downloadVideoAudio (LibOutcome.raises "boom") "t" "bad" "ch" "d"
          initStats).stats.successful = initStats.successful + 1 ∨
       (downloadVideoAudio (LibOutcome.raises "boom") "t" "bad" "ch" "d"
          initStats).stats.failed = initStats.failed + 1) := by
  decide

/-- C2 (amended): on every call in which a video id is extractable from
the URL, exactly one of the success and failure counters is incremented
by one; when no id is extractable the stats are left unchanged. -/
theorem c2_amended_stats_mutation :
    ∀ lib now url ch base s,
      ((extractVideoId url).isSome = true →
        ((downloadVideoAudio lib now url ch base s).stats.successful =
            s.successful + 1 ∧
         (downloadVideoAudio lib now url ch base s).stats.failed = s.failed) ∨
        ((downloadVideoAudio lib now url ch base s).stats.successful =
            s.successful ∧
         (downloadVideoAudio lib now url ch base s).stats.failed = s.failed + 1)) ∧
      (extractVideoId url = none →
        (downloadVideoAudio lib now url ch base s).stats = s) := by
  intro lib now url ch base s
  cases hid : extractVideoId url with
  | none =>
    constructor
    · intro hs
      exact absurd hs (by simp)
    · intro _
      simp [downloadVideoAudio, hid]
  | some v =>
    constructor
    · intro _
      cases lib with
      | info i => left; constructor <;> simp [downloadVideoAudio, hid]
      | noInfo => right; constructor <;> simp [downloadVideoAudio, hid]
      | raises m => right; constructor <;> simp [downloadVideoAudio, hid]
    · intro hn
      exact Option.noConfusion hn

/-- Concrete instantiation of the amended stats-mutation theorem. -/
theorem c2_amended_stats_mutation_witness :
    ((downloadVideoAudio LibOutcome.noInfo "t" "https://youtu.be/dQw4w9WgXcQ"
        "c" "d" initStats).stats.successful = initStats.successful + 1 ∧
     (downloadVideoAudio LibOutcome.noInfo "t" "https://youtu.be/dQw4w9WgXcQ"
        "c" "d" initStats).stats.failed = initStats.failed) ∨
    ((downloadVideoAudio LibOutcome.noInfo "t" "https://youtu.be/dQw4w9WgXcQ"
        "c" "d" initStats).stats.successful = initStats.successful ∧
     (downloadVideoAudio LibOutcome.noInfo "t" "https://youtu.be/dQw4w9WgXcQ"
        "c" "d" initStats).stats.failed = initStats.failed + 1) :=
  (c2_amended_stats_mutation LibOutcome.noInfo "t"
    "https://youtu.be/dQw4w9WgXcQ" "c" "d" initStats).1 (by decide)

/-! ## Lemmas about channel enumeration -/

theorem collect_le (N : Nat) (hN : 1 ≤ N) :
    ∀ (es : List (Option String)) (acc : List String), acc.length < N →
      (collectVideos (some N) es acc).length ≤ N := by
  intro es
  induction es with
  | nil =>
    intro acc h
    rw [collectVideos]
    omega
  | cons e rest ih =>
    intro acc h
    cases e with
    | none =>
      simp only [collectVideos]
      exact ih acc h
    | some vid =>
      simp only [collectVideos]
      by_cases hc : (optTruthy (some N) &&
          decide ((some N).getD 0 ≤ (acc ++ [watchUrl vid]).length)) = true
      · rw [if_pos hc]
        simp only [List.length_append, List.length_cons, List.length_nil]
        omega
      · rw [if_neg hc]
        apply ih
        have hN0 : (N != 0) = true := by
          simp only [bne_iff_ne, ne_eq]
          omega
        have hlen : ¬ (N ≤ acc.length + 1) := by
          intro hle
          apply hc
          simp [optTruthy, hN0, List.length_append, hle]
        simp only [List.length_append, List.length_cons, List.length_nil]
        omega

theorem collect_zero :
    ∀ (es : List (Option String)) (acc : List String),
      collectVideos (some 0) es acc = collectVideos none es acc := by
  intro es
  induction es with
  | nil => intro acc; rfl
  | cons e rest ih =>
    intro acc
    cases e with
    | none =>
      simp only [collectVideos]
      exact ih acc
    | some vid =>
      have h1 : (optTruthy (some 0) &&
          decide ((some 0).getD 0 ≤ (acc ++ [watchUrl vid]).length)) = false := rfl
      have h2 : (optTruthy none &&
          decide ((none : Option Nat).getD 0 ≤ (acc ++ [watchUrl vid]).length)) =
          false := rfl
      simp only [collectVideos, h1, h2, Bool.false_eq_true, if_false]
      exact ih _

/-- C4 counterexample: with `max_videos = 0` and one enumerated entry,
`get_channel_videos` returns one URL, which is more than zero, because
the truncation guard treats 0 as falsy. -/
theorem c4_counterexample :
    ¬ ((getChannelVideos (EnumOutcome.entries [some "AAAAAAAAAAA"])
        (some 0)).length ≤ 0) := by
  decide

/-- C4 (amended): for every positive bound N, `get_channel_videos`
returns at most N URLs however many entries the channel enumerates;
`max_videos = 0` is treated like no bound at all. -/
theorem c4_amended_truncation :
    (∀ e N, 1 ≤ N → (getChannelVideos e (some N)).length ≤ N) ∧
    (∀ e, getChannelVideos e (some 0) = getChannelVideos e none) := by
  constructor
  · intro e N hN
    cases e with
    | raises m => simp [getChannelVideos]
    | noEntries => simp [getChannelVideos]
    | entries es => exact collect_le N hN es [] (by simpa using hN)
  · intro e
    cases e with
    | raises m => rfl
    | noEntries => rfl
    | entries es => exact collect_zero es []

/-- Concrete instantiation of the amended truncation theorem. -/
theorem c4_amended_truncation_witness :
    (getChannelVideos
      (EnumOutcome.entries [some "AAAAAAAAAAA", some "BBBBBBBBBBB"])
      (some 1)).length ≤ 1 :=
  c4_amended_truncation.1
    (EnumOutcome.entries [some "AAAAAAAAAAA", some "BBBBBBBBBBB"]) 1
    (by decide)

/-! ## Lemmas about per-channel results and the orchestrator loop -/

theorem countStatus_split : ∀ (l : List VideoResult),
    (∀ r ∈ l, r.status = "success" ∨ r.status = "failed") →
    countStatus "success" l + countStatus "failed" l = l.length := by
  intro l
  induction l with
  | nil => intro _; rfl
  | cons r rest ih =>
    intro h
    have hr := h r (List.mem_cons_self r rest)
    have ih2 := ih (fun x hx => h x (List.mem_cons_of_mem r hx))
    simp only [countStatus, List.countP_cons, List.length_cons] at ih2 ⊢
    rcases hr with hr | hr <;> simp [hr] <;> omega

theorem runVideos_status (o : ChannelOracle) (name base : String) :
    ∀ (urls : List String) (i : Nat) (s : Stats),
      ∀ r ∈ (runVideos o name base urls i s).1,
        r.status = "success" ∨ r.status = "failed" := by
  intro urls
  induction urls with
  | nil => intro i s r hr; simp [runVideos] at hr
  | cons u rest ih =>
    intro i s r hr
    simp only [runVideos] at hr
    rcases List.mem_cons.mp hr with hr | hr
    · rw [hr]
      exact dv_status (o.lib i) (o.time i) u name base s
    · exact ih (i + 1) _ r hr

theorem dfc_status (o : ChannelOracle) (curl cname : String)
    (maxV : Option Nat) (base : String) (s : Stats) :
    ∀ r ∈ (downloadFromChannel o curl cname maxV base s).1,
      r.status = "success" ∨ r.status = "failed" := by
  intro r hr
  by_cases he : (getChannelVideos o.enum maxV).isEmpty = true
  · simp only [downloadFromChannel, he, if_true] at hr
    simp at hr
  · simp only [downloadFromChannel, he] at hr
    rw [if_neg (by simp [he])] at hr
    exact runVideos_status o cname base _ 0 _ r hr

theorem dictInsert_mem : ∀ (l : List (String × ChannelResult)) (k : String)
    (v : ChannelResult) (p : String × ChannelResult),
    p ∈ dictInsert l k v → p ∈ l ∨ p = (k, v) := by
  intro l
  induction l with
  | nil =>
    intro k v p hp
    right
    simpa [dictInsert] using hp
  | cons kv rest ih =>
    obtain ⟨k1, v1⟩ := kv
    intro k v p hp
    rw [dictInsert] at hp
    by_cases hk : k1 = k
    · rw [if_pos hk] at hp
      rcases List.mem_cons.mp hp with h1 | h1
      · right; exact h1
      · left; exact List.mem_cons_of_mem _ h1
    · rw [if_neg hk] at hp
      rcases List.mem_cons.mp hp with h1 | h1
      · left; rw [h1]; exact List.mem_cons_self _ _
      · rcases ih k v p h1 with h2 | h2
        · left; exact List.mem_cons_of_mem _ h2
        · right; exact h2

theorem processChannel_good (maxV : Option Nat) (base : String)
    (st : BatchState) (c : ChannelSpec)
    (h : ∀ p ∈ st.all_results, goodCR p.2) :
    ∀ p ∈ (processChannel maxV base st c).all_results, goodCR p.2 := by
  intro p hp
  cases hb : c.behavior with
  | ok o =>
    simp only [processChannel, hb] at hp
    rcases dictInsert_mem _ _ _ p hp with h1 | h1
    · exact h p h1
    · rw [h1]
      exact ⟨countStatus_split _ (dfc_status o c.url c.name maxV base st.stats), rfl⟩
  | error e =>
    simp only [processChannel, hb] at hp
    rcases dictInsert_mem _ _ _ p hp with h1 | h1
    · exact h p h1
    · rw [h1]; trivial

theorem run_good (maxV : Option Nat) (base : String) :
    ∀ (cs : List ChannelSpec) (st : BatchState),
      (∀ p ∈ st.all_results, goodCR p.2) →
      ∀ p ∈ (cs.foldl (processChannel maxV base) st).all_results, goodCR p.2 := by
  intro cs
  induction cs with
  | nil => intro st h; simpa using h
  | cons c rest ih =>
    intro st h
    rw [List.foldl_cons]
    exact ih _ (processChannel_good maxV base st c h)

/-- C1: every normal ChannelResult recorded by a batch run, over any
channel list and any per-video outcomes, including channels with zero
enumerated videos, satisfies successful + failed = total_videos, where
total_videos is the number of VideoResults in its videos list. -/
theorem c1_channel_counts :
    ∀ maxV base cs name url t su fa vids,
      (name, ChannelResult.ok url t su fa vids) ∈
        (runChannels maxV base cs).all_results →
      su + fa = t ∧ t = vids.length := by
  intro maxV base cs name url t su fa vids h
  exact run_good maxV base cs initBatchState
    (by intro p hp; simp [initBatchState] at hp) _ h

/-- Concrete instantiation of the channel-counts theorem on a run with
one zero-video channel. -/
theorem c1_channel_counts_witness :
    (0 : Nat) + 0 = 0 ∧ (0 : Nat) = ([] : List VideoResult).length :=
  c1_channel_counts none "downloads"
    [⟨"ch", "u", Except.ok ⟨EnumOutcome.noEntries,
      fun _ => LibOutcome.raises "e", fun _ => "t"⟩⟩]
    "ch" "u" 0 0 0 [] (by decide)

theorem runChannels_take_succ (maxV : Option Nat) (base : String)
    (cs : List ChannelSpec) (k : Nat) (h : k < cs.length) :
    runChannels maxV base (cs.take (k + 1)) =
      processChannel maxV base (runChannels maxV base (cs.take k)) cs[k] := by
  rw [runChannels, runChannels, List.take_succ, List.getElem?_eq_getElem h]
  rw [List.foldl_append]
  rfl

/-- C3 counterexample: in a batch with a single channel whose
`download_from_channel` call raises, the error entry is recorded in the
accumulated mapping but the checkpoint file is never written, so after
processing channel 1 the checkpoint does not hold the serialization of
the accumulated results for channels 1..1. -/
theorem c3_counterexample :
    ¬ ((runChannels none "downloads"
          [⟨"c1", "u1", Except.error "boom"⟩]).checkpoint =
        some (serializeResults
          (runChannels none "downloads"
            [⟨"c1", "u1", Except.error "boom"⟩]).all_results)) := by
  have hck : (runChannels none "downloads"
      [⟨"c1", "u1", Except.error "boom"⟩]).checkpoint = none := rfl
  intro h
  rw [hck] at h
  exact Option.noConfusion h

/-- C3 (amended): the final file always holds the serialization of the
full accumulated mapping for all n channels, error entries included;
after processing channel k the checkpoint file holds the serialization
of the accumulated mapping for channels 1..k when channel k returned
normally, but when channel k raised, the checkpoint is left exactly as
it was after channel k-1 (the error entry is recorded in the in-memory
mapping only, reaching disk at the next successful checkpoint or the
final write). -/
theorem c3_amended_checkpointing :
    ∀ maxV base cs,
      (runBatch maxV base cs).2 =
        some (serializeResults (runChannels maxV base cs).all_results) ∧
      (∀ k (h : k < cs.length) o, cs[k].behavior = Except.ok o →
        (runChannels maxV base (cs.take (k + 1))).checkpoint =
          some (serializeResults
            (runChannels maxV base (cs.take (k + 1))).all_results)) ∧
      (∀ k (h : k < cs.length) e, cs[k].behavior = Except.error e →
        (runChannels maxV base (cs.take (k + 1))).checkpoint =
          (runChannels maxV base (cs.take k)).checkpoint ∧
        (runChannels maxV base (cs.take (k + 1))).all_results =
          dictInsert (runChannels maxV base (cs.take k)).all_results
            cs[k].name (ChannelResult.err cs[k].url e)) := by
  intro maxV base cs
  refine ⟨rfl, ?_, ?_⟩
  · intro k h o hb
    rw [runChannels_take_succ maxV base cs k h]
    simp only [processChannel, hb]
    rfl
  · intro k h e hb
    rw [runChannels_take_succ maxV base cs k h]
    simp [processChannel, hb]

/-- Concrete instantiation of the amended checkpointing theorem. -/
theorem c3_amended_checkpointing_witness :
    (runChannels none "d"
      [⟨"ch", "u", Except.ok ⟨EnumOutcome.noEntries,
        fun _ => LibOutcome.raises "e", fun _ => "t"⟩⟩]).checkpoint =
    some (serializeResults
      (runChannels none "d"
        [⟨"ch", "u", Except.ok ⟨EnumOutcome.noEntries,
          fun _ => LibOutcome.raises "e", fun _ => "t"⟩⟩]).all_results) :=
  (c3_amended_checkpointing none "d"
    [⟨"ch", "u", Except.ok ⟨EnumOutcome.noEntries,
      fun _ => LibOutcome.raises "e", fun _ => "t"⟩⟩]).2.1 0
    (by decide)
    ⟨EnumOutcome.noEntries, fun _ => LibOutcome.raises "e", fun _ => "t"⟩ rfl

/-- C9: the result persister is deterministic in the mapping alone (the
previous file content never leaks into the output, since the file is
opened for truncating write), hence re-running it with the same mapping
in the same iteration order is idempotent and byte-identical; the
serialization uses 2-space indentation, stable key order, and preserves
non-ASCII characters. -/
theorem c9_persister_idempotent :
    (∀ rs f g, saveBatchResults rs f = saveBatchResults rs g) ∧
    (∀ rs f, saveBatchResults rs (saveBatchResults rs f) = saveBatchResults rs f) ∧
    serializeResults [("詩詩fly", ChannelResult.err "u" "e")] =
      "\x7b\n  \"詩詩fly\": \x7b\n    \"channel_url\": \"u\",\n    \"status\": \"error\",\n    \"error\": \"e\"\n  \x7d\n\x7d" := by
  refine ⟨fun rs f g => rfl, fun rs f => rfl, ?_⟩
  rfl

/-! ## Lemmas about the skipped counter -/

theorem dv_skipped (lib : LibOutcome) (now url ch base : String) (s : Stats) :
    (downloadVideoAudio lib now url ch base s).stats.skipped = s.skipped := by
  cases hid : extractVideoId url with
  | none => simp [downloadVideoAudio, hid]
  | some v => cases lib <;> simp [downloadVideoAudio, hid]

theorem runVideos_skipped (o : ChannelOracle) (name base : String) :
    ∀ (urls : List String) (i : Nat) (s : Stats),
      (runVideos o name base urls i s).2.skipped = s.skipped := by
  intro urls
  induction urls with
  | nil => intro i s; rfl
  | cons u rest ih =>
    intro i s
    simp only [runVideos]
    rw [ih]
    exact dv_skipped (o.lib i) (o.time i) u name base s

theorem dfc_skipped (o : ChannelOracle) (curl cname : String)
    (maxV : Option Nat) (base : String) (s : Stats) :
    (downloadFromChannel o curl cname maxV base s).2.skipped = s.skipped := by
  by_cases he : (getChannelVideos o.enum maxV).isEmpty = true
  · simp only [downloadFromChannel, he, if_true]
  · simp only [downloadFromChannel, he]
    rw [if_neg (by simp [he])]
    exact runVideos_skipped o cname base _ 0 _

theorem applyOp_skipped (base : String) (s : Stats) (op : DOp) :
    (applyOp base s op).skipped = s.skipped := by
  cases op with
  | vid lib now url ch => exact dv_skipped lib now url ch base s
  | chan o url ch maxV => exact dfc_skipped o url ch maxV base s
  | enum e maxV => rfl

theorem foldl_skipped (base : String) :
    ∀ (ops : List DOp) (s : Stats),
      (ops.foldl (applyOp base) s).skipped = s.skipped := by
  intro ops
  induction ops with
  | nil => intro s; rfl
  | cons op rest ih =>
    intro s
    rw [List.foldl_cons, ih, applyOp_skipped]

/-- C10: the skipped counter starts at zero and no downloader operation
ever changes it, so after any sequence of operations on one instance
the counter is still zero and print_stats reports `Skipped: 0`. -/
theorem c10_skipped_always_zero :
    initStats.skipped = 0 ∧
    (∀ base (ops : List DOp),
      (ops.foldl (applyOp base) initStats).skipped = 0) ∧
    (∀ base (ops : List DOp),
      ("Skipped: 0" : String) ∈
        printStats (ops.foldl (applyOp base) initStats)) := by
  refine ⟨rfl, fun base ops => foldl_skipped base ops initStats, ?_⟩
  intro base ops
  have h : (ops.foldl (applyOp base) initStats).skipped = 0 :=
    foldl_skipped base ops initStats
  simp only [printStats, h, List.mem_cons]
  exact Or.inr (Or.inr (Or.inr (Or.inr (Or.inr (Or.inr (Or.inl rfl))))))
